import Mathlib

/-!
Verification of the application bootstrap in
`apps/webui/src-tauri/src/lib.rs` (the `run` function).

The Rust function builds a Tauri `Builder`, attaches five baseline
plugins, attaches the opener plugin on non-mobile targets or the
barcode-scanner plugin on mobile targets, installs a setup callback
that conditionally calls `register_all` for deep links (discarding the
result), and finally calls `.run(..).expect("error while running tauri
application")`.

The embedding below models the compile-time configuration
(`target_os`, `debug_assertions`), the list of attached plugins, the
setup callback, the event trace of the bootstrap sequence, and the
outcome of the final run call.
-/

/-- The plugins attached by `run` in `lib.rs`. -/
inductive Plugin
  | store
  | notification
  | deep_link
  | http
  | os
  | opener
  | barcode_scanner
deriving DecidableEq, Fintype, Repr

/-- Compile-time `target_os` values relevant to the `cfg` attributes in
`lib.rs`: `linux`, `windows`, and the two mobile systems appear in the
conditions; `macos` and `freebsd` stand for the remaining desktop
targets. -/
inductive TargetOs
  | linux
  | windows
  | macos
  | freebsd
  | android
  | ios
deriving DecidableEq, Repr

/-- The compile-time build configuration: the Rust `cfg` predicates in
`lib.rs` depend only on `target_os` and `debug_assertions`. -/
structure BuildConfig where
  target_os : TargetOs
  debug_assertions : Bool
deriving DecidableEq, Repr

/-- The `cfg(any(target_os = "android", target_os = "ios"))` predicate
from `lib.rs`. -/
def is_mobile (cfg : BuildConfig) : Bool :=
  cfg.target_os == TargetOs.android || cfg.target_os == TargetOs.ios

/-- The Rust `cfg(windows)` predicate (the windows target family). -/
def is_windows (cfg : BuildConfig) : Bool :=
  cfg.target_os == TargetOs.windows

/-- The five plugins attached unconditionally, in source order:
`tauri_plugin_store`, `tauri_plugin_notification`,
`tauri_plugin_deep_link`, `tauri_plugin_http`, `tauri_plugin_os`. -/
def base_plugins : List Plugin :=
  [Plugin.store, Plugin.notification, Plugin.deep_link, Plugin.http, Plugin.os]

/-- The plugin list built by `run`: the five baseline plugins, then
`tauri_plugin_opener` under `cfg(not(any(android, ios)))`, then
`tauri_plugin_barcode_scanner` under `cfg(any(android, ios))`. -/
def attached_plugins (cfg : BuildConfig) : List Plugin :=
  let b := base_plugins
  let b := if is_mobile cfg then b else b ++ [Plugin.opener]
  let b := if is_mobile cfg then b ++ [Plugin.barcode_scanner] else b
  b

/-- The `cfg(any(target_os = "linux", all(debug_assertions, windows)))`
guard around the `register_all` call in the setup closure. -/
def deep_link_register_cond (cfg : BuildConfig) : Bool :=
  cfg.target_os == TargetOs.linux || (cfg.debug_assertions && is_windows cfg)

/-- The setup closure from `lib.rs`: under the guard it calls
`app.deep_link().register_all()` once and discards the result
(`let _ = ...`); it then returns `Ok(())`.  The first component is the
closure's own result, the second counts `register_all` invocations.
`reg_result` is the result the `register_all` call would produce. -/
def setup_callback (cfg : BuildConfig) (reg_result : Except String Unit) :
    Except String Unit × Nat :=
  if deep_link_register_cond cfg then
    let _discarded := reg_result
    (Except.ok (), 1)
  else
    (Except.ok (), 0)

/-- Outcome of the bootstrap: `.run(..).expect(..)` either lets `run`
return normally (run result `Ok`) or panics with the fixed message
(run result `Err`).  `run` has return type `()`, so there is no
error-returning outcome. -/
inductive RunOutcome
  | returned
  | panicked (msg : String)
deriving DecidableEq, Repr

/-- Events of the bootstrap sequence, in the order `run` performs
them. -/
inductive Event
  | attach (p : Plugin)
  | setup_registered
  | run_invoked
deriving DecidableEq, Repr

/-- Everything observable about one execution of the Rust `run`
function. -/
structure BootResult where
  plugins : List Plugin
  trace : List Event
  setup_result : Except String Unit
  register_all_calls : Nat
  outcome : RunOutcome
deriving Repr

/-- The Rust `run` function: attach the plugins, register the setup
closure, invoke the blocking run call, and apply
`.expect("error while running tauri application")` to its result.
`reg_result` is the result `register_all` would produce when invoked;
`run_result` is the result of the framework's run call. -/
def run (cfg : BuildConfig) (reg_result run_result : Except String Unit) :
    BootResult :=
  let plugins := attached_plugins cfg
  let s := setup_callback cfg reg_result
  { plugins := plugins
    trace := plugins.map Event.attach ++ [Event.setup_registered, Event.run_invoked]
    setup_result := s.1
    register_all_calls := s.2
    outcome :=
      match run_result with
      | Except.ok _ => RunOutcome.returned
      | Except.error _ => RunOutcome.panicked "error while running tauri application" }

/-- The event trace of one bootstrap execution: each plugin attachment
in order, then the registration of the setup closure, then the run
invocation. -/
def run_trace (cfg : BuildConfig) : List Event :=
  (attached_plugins cfg).map Event.attach ++ [Event.setup_registered, Event.run_invoked]

lemma attached_plugins_desktop (cfg : BuildConfig) (h : is_mobile cfg = false) :
    attached_plugins cfg = base_plugins ++ [Plugin.opener] := by
  unfold attached_plugins
  rw [h]
  rfl

lemma attached_plugins_mobile (cfg : BuildConfig) (h : is_mobile cfg = true) :
    attached_plugins cfg = base_plugins ++ [Plugin.barcode_scanner] := by
  unfold attached_plugins
  rw [h]
  rfl

/-- C1: the setup callback invokes `register_all` exactly once when the
target is Linux, or Windows with debug assertions enabled, and zero
times on every other platform/build combination. -/
theorem startup_register_all_count (cfg : BuildConfig)
    (reg_result run_result : Except String Unit) :
    (run cfg reg_result run_result).register_all_calls =
      (if cfg.target_os = TargetOs.linux ∨
          (cfg.debug_assertions = true ∧ cfg.target_os = TargetOs.windows)
       then 1 else 0) := by
  rcases cfg with ⟨os, d⟩
  cases os <;> cases d <;> rfl

/-- C2: on every desktop (non-mobile) target the attached-plugin set
includes the opener plugin and excludes the barcode-scanner plugin. -/
theorem desktop_plugin_selection (cfg : BuildConfig)
    (reg_result run_result : Except String Unit) (h : is_mobile cfg = false) :
    Plugin.opener ∈ (run cfg reg_result run_result).plugins ∧
      Plugin.barcode_scanner ∉ (run cfg reg_result run_result).plugins := by
  have hp : (run cfg reg_result run_result).plugins = base_plugins ++ [Plugin.opener] :=
    attached_plugins_desktop cfg h
  rw [hp]
  decide

theorem desktop_plugin_selection_witness :
    is_mobile ⟨TargetOs.linux, true⟩ = false ∧
      (Plugin.opener ∈ (run ⟨TargetOs.linux, true⟩ (Except.ok ()) (Except.ok ())).plugins ∧
       Plugin.barcode_scanner ∉ (run ⟨TargetOs.linux, true⟩ (Except.ok ()) (Except.ok ())).plugins) :=
  ⟨by decide,
   desktop_plugin_selection ⟨TargetOs.linux, true⟩ (Except.ok ()) (Except.ok ()) (by decide)⟩

/-- C3: on every mobile target the attached-plugin set includes the
barcode-scanner plugin and excludes the opener plugin. -/
theorem mobile_plugin_selection (cfg : BuildConfig)
    (reg_result run_result : Except String Unit) (h : is_mobile cfg = true) :
    Plugin.barcode_scanner ∈ (run cfg reg_result run_result).plugins ∧
      Plugin.opener ∉ (run cfg reg_result run_result).plugins := by
  have hp : (run cfg reg_result run_result).plugins = base_plugins ++ [Plugin.barcode_scanner] :=
    attached_plugins_mobile cfg h
  rw [hp]
  decide

theorem mobile_plugin_selection_witness :
    is_mobile ⟨TargetOs.android, false⟩ = true ∧
      (Plugin.barcode_scanner ∈ (run ⟨TargetOs.android, false⟩ (Except.ok ()) (Except.ok ())).plugins ∧
       Plugin.opener ∉ (run ⟨TargetOs.android, false⟩ (Except.ok ()) (Except.ok ())).plugins) :=
  ⟨by decide,
   mobile_plugin_selection ⟨TargetOs.android, false⟩ (Except.ok ()) (Except.ok ()) (by decide)⟩

/-- C4: the five baseline plugins (store, notification, deep-link,
HTTP, OS) are attached on every build target. -/
theorem baseline_plugins_always_attached (cfg : BuildConfig)
    (reg_result run_result : Except String Unit) :
    Plugin.store ∈ (run cfg reg_result run_result).plugins ∧
    Plugin.notification ∈ (run cfg reg_result run_result).plugins ∧
    Plugin.deep_link ∈ (run cfg reg_result run_result).plugins ∧
    Plugin.http ∈ (run cfg reg_result run_result).plugins ∧
    Plugin.os ∈ (run cfg reg_result run_result).plugins := by
  show Plugin.store ∈ attached_plugins cfg ∧ Plugin.notification ∈ attached_plugins cfg ∧
    Plugin.deep_link ∈ attached_plugins cfg ∧ Plugin.http ∈ attached_plugins cfg ∧
    Plugin.os ∈ attached_plugins cfg
  cases hb : is_mobile cfg
  · rw [attached_plugins_desktop cfg hb]
    decide
  · rw [attached_plugins_mobile cfg hb]
    decide

/-- C5: the setup callback returns `Ok` no matter what result the
`register_all` call produces. -/
theorem setup_callback_always_ok (cfg : BuildConfig)
    (reg_result run_result : Except String Unit) :
    (run cfg reg_result run_result).setup_result = Except.ok () := by
  show (setup_callback cfg reg_result).1 = Except.ok ()
  unfold setup_callback
  split <;> rfl

/-- C6: when the run-loop invocation fails, `run` panics with the fixed
diagnostic message; for any run result, `run` either returns normally
or panics with that message — it never returns an error value. -/
theorem run_failure_panics_fixed_message (cfg : BuildConfig)
    (reg_result : Except String Unit) (e : String) :
    (run cfg reg_result (Except.error e)).outcome =
      RunOutcome.panicked "error while running tauri application" ∧
    ∀ run_result : Except String Unit,
      (run cfg reg_result run_result).outcome = RunOutcome.returned ∨
      (run cfg reg_result run_result).outcome =
        RunOutcome.panicked "error while running tauri application" := by
  refine ⟨rfl, fun run_result => ?_⟩
  cases run_result
  · exact Or.inr rfl
  · exact Or.inl rfl

/-- C7: in the bootstrap trace, every plugin attachment and the
registration of the setup callback occur at positions strictly before
the run-loop invocation. -/
theorem attachments_precede_run (cfg : BuildConfig)
    (reg_result run_result : Except String Unit) (i j : Nat)
    (hi : (run cfg reg_result run_result).trace.get? i = some Event.run_invoked)
    (hj : (run cfg reg_result run_result).trace.get? j = some Event.setup_registered ∨
      ∃ p, (run cfg reg_result run_result).trace.get? j = some (Event.attach p)) :
    j < i := by
  have htr : (run cfg reg_result run_result).trace = run_trace cfg := rfl
  rw [htr] at hi hj
  have hlen : (run_trace cfg).length = 8 := by
    cases hb : is_mobile cfg
    · unfold run_trace
      rw [attached_plugins_desktop cfg hb]
      rfl
    · unfold run_trace
      rw [attached_plugins_mobile cfg hb]
      rfl
  have hi8 : i < 8 := by
    obtain ⟨h, -⟩ := List.get?_eq_some.mp hi
    omega
  have hj8 : j < 8 := by
    rcases hj with hj | ⟨p, hj⟩ <;>
      · obtain ⟨h, -⟩ := List.get?_eq_some.mp hj
        omega
  cases hb : is_mobile cfg
  · rw [run_trace, attached_plugins_desktop cfg hb] at hi hj
    interval_cases i <;> interval_cases j <;> revert hi hj <;> decide
  · rw [run_trace, attached_plugins_mobile cfg hb] at hi hj
    interval_cases i <;> interval_cases j <;> revert hi hj <;> decide

theorem attachments_precede_run_witness :
    (run ⟨TargetOs.linux, true⟩ (Except.ok ()) (Except.ok ())).trace.get? 7 =
        some Event.run_invoked ∧
      (run ⟨TargetOs.linux, true⟩ (Except.ok ()) (Except.ok ())).trace.get? 0 =
        some (Event.attach Plugin.store) ∧
      (0 : Nat) < 7 :=
  ⟨by decide, by decide,
   attachments_precede_run ⟨TargetOs.linux, true⟩ (Except.ok ()) (Except.ok ()) 7 0
     (by decide) (by decide)⟩

/-- C8 counterexample: the claim that control never returns from the
run call on success is false of the code as written: when the run call
completes with `Ok`, `.expect` unwraps it and the bootstrap function
returns normally.  Concretely, on a Linux debug build with a successful
run result the outcome is a normal return. -/
theorem run_success_returns_counterexample :
    ¬ (∀ (cfg : BuildConfig) (reg_result : Except String Unit),
        (run cfg reg_result (Except.ok ())).outcome ≠ RunOutcome.returned) := by
  intro h
  exact h ⟨TargetOs.linux, true⟩ (Except.ok ()) rfl

/-- C8 (amended): on normal shutdown — the run call completing with
`Ok` — the bootstrap function returns normally; on a failed run call it
panics with the fixed message.  Whether the framework's run call ever
returns successfully is internal to the framework and not visible in
this code. -/
theorem run_success_returns_normally (cfg : BuildConfig)
    (reg_result : Except String Unit) :
    (∀ u : Unit, (run cfg reg_result (Except.ok u)).outcome = RunOutcome.returned) ∧
    (∀ e : String, (run cfg reg_result (Except.error e)).outcome =
      RunOutcome.panicked "error while running tauri application") :=
  ⟨fun _ => rfl, fun _ => rfl⟩

/-- C9: exactly one of the opener and barcode-scanner plugins is
attached on every target, and the attached-plugin list always has
exactly six distinct elements. -/
theorem exactly_one_platform_plugin (cfg : BuildConfig)
    (reg_result run_result : Except String Unit) :
    (run cfg reg_result run_result).plugins.count Plugin.opener +
        (run cfg reg_result run_result).plugins.count Plugin.barcode_scanner = 1 ∧
      (run cfg reg_result run_result).plugins.length = 6 ∧
      (run cfg reg_result run_result).plugins.Nodup := by
  show (attached_plugins cfg).count Plugin.opener +
        (attached_plugins cfg).count Plugin.barcode_scanner = 1 ∧
      (attached_plugins cfg).length = 6 ∧ (attached_plugins cfg).Nodup
  cases hb : is_mobile cfg
  · rw [attached_plugins_desktop cfg hb]
    decide
  · rw [attached_plugins_mobile cfg hb]
    decide

/-- C10: the mobile predicate holds precisely when `target_os` is
android or ios, and every other target takes the desktop branch and
receives the opener plugin (and not the barcode scanner). -/
theorem mobile_iff_android_or_ios (cfg : BuildConfig) :
    (is_mobile cfg = true ↔
      (cfg.target_os = TargetOs.android ∨ cfg.target_os = TargetOs.ios)) ∧
    (cfg.target_os ≠ TargetOs.android → cfg.target_os ≠ TargetOs.ios →
      Plugin.opener ∈ attached_plugins cfg ∧
        Plugin.barcode_scanner ∉ attached_plugins cfg) := by
  rcases cfg with ⟨os, d⟩
  cases os <;> cases d <;> exact ⟨by decide, by decide⟩

theorem mobile_iff_android_or_ios_witness :
    (⟨TargetOs.macos, false⟩ : BuildConfig).target_os ≠ TargetOs.android ∧
      (Plugin.opener ∈ attached_plugins ⟨TargetOs.macos, false⟩ ∧
       Plugin.barcode_scanner ∉ attached_plugins ⟨TargetOs.macos, false⟩) :=
  ⟨by decide,
   (mobile_iff_android_or_ios ⟨TargetOs.macos, false⟩).2 (by decide) (by decide)⟩
